import Mathlib

/-!
Shallow embedding of `src/elastic_apm_profiler/src/profiler/env.rs`:
environment-variable resolution, logging bootstrap, and integration
manifest loading of the elastic APM .NET profiler.

The process environment is modelled as a function `Env := String → Option String`
(`std::env::var` returning `Ok v` is `some v`; any `VarError` is `none`).
Filesystem effects consumed by `initialize_logging` are modelled by an
explicit record of predicates (`FsOps`), and the fallible external sinks
(`RollingFileAppender::build`, `log4rs::init_config`, both `.unwrap()`-ed
in the source) by success parameters: an `unwrap` of a failure is a panic,
modelled as the `none` outcome of the embedded function.

All definitions are written to be kernel-computable so concrete runs can be
settled by `decide` / `rfl`; in particular Rust's `str::split(';')` and
`str::to_lowercase` are embedded as structural recursion over `List Char`
(the values of interest are ASCII, where Rust's Unicode lowercasing and
ASCII lowercasing agree).
-/

/-- A process environment: `some v` models `std::env::var` succeeding with `v`,
`none` models `VarError` (unset or non-unicode). -/
def Env : Type := String → Option String

/-- `E_FAIL` HRESULT (0x80004005) as an `i32`, from `crate::ffi::E_FAIL`. -/
def E_FAIL : Int := -2147467259

/-- ASCII lowercasing of one character, as done by `char::to_lowercase` on
ASCII input (the only inputs the recognized token sets contain). -/
def char_to_lower (c : Char) : Char :=
  if 'A' ≤ c ∧ c ≤ 'Z' then Char.ofNat (c.toNat + 32) else c

/-- Embedding of Rust `str::to_lowercase` (ASCII fragment). -/
def to_lowercase (s : String) : String :=
  String.mk (s.data.map char_to_lower)

/-- Embedding of Rust `str::split(sep)` on a character list: splitting the
empty string yields one empty token, matching `"".split(';')`. -/
def split_chars (sep : Char) : List Char → List (List Char)
  | [] => [[]]
  | c :: rest =>
    match split_chars sep rest with
    | [] => if c = sep then [[], []] else [[c]]
    | t :: ts => if c = sep then [] :: t :: ts else (c :: t) :: ts

/-- Embedding of Rust `str::split(sep)` for a one-character separator. -/
def split_on_char (sep : Char) (s : String) : List String :=
  (split_chars sep s.data).map String.mk

/-- `read_bool_env_var(key, default)` (env.rs lines 128-153): lowercase the
value; `"true" | "1"` is `true`, `"false" | "0"` is `false`; any other
value, or a read error, logs and returns `default`. -/
def read_bool_env_var (env : Env) (key : String) (default : Bool) : Bool :=
  match env key with
  | some enabled =>
    if to_lowercase enabled = "true" ∨ to_lowercase enabled = "1" then true
    else if to_lowercase enabled = "false" ∨ to_lowercase enabled = "0" then false
    else default
  | none => default

/-- The `Lazy<bool>` static `ELASTIC_APM_PROFILER_LOG_IL` (env.rs lines 48-49):
its closure reads the flag with default `false`. -/
def elastic_apm_profiler_log_il (env : Env) : Bool :=
  read_bool_env_var env "ELASTIC_APM_PROFILER_LOG_IL" false

/-- The `Lazy<bool>` static `ELASTIC_APM_PROFILER_CALLTARGET_ENABLED`
(env.rs lines 51-52): its closure reads the flag with default `true`. -/
def elastic_apm_profiler_calltarget_enabled (env : Env) : Bool :=
  read_bool_env_var env "ELASTIC_APM_PROFILER_CALLTARGET_ENABLED" true

/-- One read of a `once_cell::sync::Lazy` cell: an empty cache runs the
closure against the current environment and fills the cache; a filled cache
returns its value untouched, never consulting the environment again. -/
def lazy_read (compute : Env → Bool) (cache : Option Bool) (env : Env) :
    Bool × Option Bool :=
  match cache with
  | some v => (v, some v)
  | none => (compute env, some (compute env))

/-- `read_log_targets_from_env_var()` (env.rs lines 102-119): split the
variable on `';'`, keep lowercased tokens equal to `"file"` or `"stdout"`,
collect into a set (modelled as a deduplicated list), default an empty
result to `{"file"}`. -/
def read_log_targets_from_env_var (env : Env) : List String :=
  let set : List String :=
    match env "ELASTIC_APM_PROFILER_LOG_TARGETS" with
    | some value =>
      ((split_on_char ';' value).filterMap (fun s =>
        if to_lowercase s = "file" ∨ to_lowercase s = "stdout" then
          some (to_lowercase s)
        else none)).dedup
    | none => []
  if set.isEmpty then ["file"] else set

/-- `log::LevelFilter`. -/
inductive LevelFilter : Type
  | off
  | error
  | warn
  | info
  | debug
  | trace
deriving DecidableEq, Repr

/-- `LevelFilter::from_str` from the `log` crate dependency: the value is
matched against the level names `OFF, ERROR, WARN, INFO, DEBUG, TRACE`
ignoring ASCII case; anything else is a parse error. -/
def LevelFilter.fromStr (s : String) : Option LevelFilter :=
  if to_lowercase s = "off" then some .off
  else if to_lowercase s = "error" then some .error
  else if to_lowercase s = "warn" then some .warn
  else if to_lowercase s = "info" then some .info
  else if to_lowercase s = "debug" then some .debug
  else if to_lowercase s = "trace" then some .trace
  else none

/-- `read_log_level_from_env_var(default)` (env.rs lines 121-126). -/
def read_log_level_from_env_var (env : Env) (default : LevelFilter) : LevelFilter :=
  match env "ELASTIC_APM_PROFILER_LOG" with
  | some value => (LevelFilter.fromStr value).getD default
  | none => default

/-- `get_default_log_dir()` on non-Windows targets (env.rs lines 209-212):
a fixed path, independent of the environment. -/
def get_default_log_dir : String := "/var/log/elastic/apm-agent-dotnet"

/-- `get_log_dir()` (env.rs lines 214-219): the `ELASTIC_APM_PROFILER_LOG_DIR`
override if set, else the platform default. -/
def get_log_dir (env : Env) : String :=
  match env "ELASTIC_APM_PROFILER_LOG_DIR" with
  | some path => path
  | none => get_default_log_dir

/-- Filesystem behaviour consumed by `initialize_logging`, as predicates on
paths: `exists?`/`is_dir` model `Path::exists`/`Path::is_dir`, and
`create_ok p` models whether `std::fs::create_dir_all(p)` returns `Ok`. -/
structure FsOps where
  exists? : String → Bool
  is_dir : String → Bool
  create_ok : String → Bool

/-- The effective log directory after the exists-but-not-a-directory
substitution (env.rs lines 240-244): the resolved directory is discarded
for the platform default when it exists but is not a directory. -/
def effective_log_dir (env : Env) (fs : FsOps) : String :=
  let d0 := get_log_dir env
  if fs.exists? d0 && !fs.is_dir d0 then get_default_log_dir else d0

/-- Outcome of the directory block of `initialize_logging`: the final
directory, the `valid_log_dir` flag, and the trace of paths passed to
`std::fs::create_dir_all`, in call order. -/
structure DirResolution where
  dir : String
  valid : Bool
  create_attempts : List String
deriving DecidableEq, Repr

/-- The log-directory resolution block of `initialize_logging`
(env.rs lines 240-258): if the effective directory does not exist, try to
create it; on failure, only when it differs from the platform default,
retry once against the default, and only a failure of that retry clears
`valid_log_dir`. When the effective directory already equals the default
and creation fails, `valid_log_dir` is left `true`. -/
def resolve_log_dir (env : Env) (fs : FsOps) : DirResolution :=
  let d1 := effective_log_dir env fs
  if fs.exists? d1 then ⟨d1, true, []⟩
  else if fs.create_ok d1 then ⟨d1, true, [d1]⟩
  else if d1 = get_default_log_dir then ⟨d1, true, [d1]⟩
  else if fs.create_ok get_default_log_dir then
    ⟨get_default_log_dir, true, [d1, get_default_log_dir]⟩
  else ⟨get_default_log_dir, false, [d1, get_default_log_dir]⟩

/-- The installed logging configuration: the appender names attached to the
root (in attachment order) and the root level. -/
structure LogSetup where
  appenders : List String
  level : LevelFilter
deriving DecidableEq, Repr

/-- `initialize_logging(process_name)` (env.rs lines 221-297). `appender_ok d`
models whether `RollingFileAppender::build` for a log file under directory
`d` returns `Ok` (the file-path formatting from `process_name` and the pid
is not interpreted by any claim and is abstracted over the directory);
`init_ok` models whether `log4rs::init_config` returns `Ok`. The source
`.unwrap()`s both results, so their failure is a panic: the embedded
function returns `none` instead of a `Handle`. The `FixedWindowRoller`
unwrap always succeeds because its fixed pattern contains the literal
index placeholder. -/
def initialize_logging (process_name : String) (env : Env) (fs : FsOps)
    (appender_ok : String → Bool) (init_ok : Bool) : Option LogSetup :=
  let targets := read_log_targets_from_env_var env
  let level := read_log_level_from_env_var env .warn
  let apps := if targets.contains "stdout" then ["stdout"] else ([] : List String)
  let _ := process_name
  if targets.contains "file" then
    let r := resolve_log_dir env fs
    if r.valid then
      if appender_ok r.dir then
        if init_ok then some ⟨apps ++ ["file"], level⟩ else none
      else none
    else if init_ok then some ⟨apps, level⟩ else none
  else if init_ok then some ⟨apps, level⟩ else none

/-- `load_integrations()` (env.rs lines 301-331). The integration record type
is opaque to this function (`α`); `open_file` models `File::open` (`none` is
an I/O error) and `parse_yaml` models `serde_yaml::from_reader` on the opened
file's contents (`none` is a parse error). Every failure maps to `E_FAIL`. -/
def load_integrations (α : Type) (env : Env) (open_file : String → Option String)
    (parse_yaml : String → Option (List α)) : Except Int (List α) :=
  match env "ELASTIC_APM_PROFILER_INTEGRATIONS" with
  | none => .error E_FAIL
  | some path =>
    match open_file path with
    | none => .error E_FAIL
    | some contents =>
      match parse_yaml contents with
      | none => .error E_FAIL
      | some integrations => .ok integrations

/-! ## Shared helper lemmas -/

/-- Reading the log targets only consults the one environment key. -/
lemma read_log_targets_congr (env : Env) (o : Option String)
    (h : env "ELASTIC_APM_PROFILER_LOG_TARGETS" = o) :
    read_log_targets_from_env_var env = read_log_targets_from_env_var (fun _ => o) := by
  simp [read_log_targets_from_env_var, h]

/-- The log-target list is never empty. -/
lemma read_log_targets_ne_nil (env : Env) :
    read_log_targets_from_env_var env ≠ [] := by
  unfold read_log_targets_from_env_var
  rcases h : env "ELASTIC_APM_PROFILER_LOG_TARGETS" with _ | v <;> simp only [h]
  · simp
  · split
    · simp
    · rename_i hne
      simpa using hne

/-- Every element of the log-target list is `"file"` or `"stdout"`. -/
lemma read_log_targets_mem (env : Env) (x : String)
    (hx : x ∈ read_log_targets_from_env_var env) : x = "file" ∨ x = "stdout" := by
  unfold read_log_targets_from_env_var at hx
  rcases h : env "ELASTIC_APM_PROFILER_LOG_TARGETS" with _ | v <;>
    simp only [h] at hx
  · simp at hx
    exact Or.inl hx
  · split at hx
    · simp at hx
      exact Or.inl hx
    · obtain ⟨a, ha, hfa⟩ := List.mem_filterMap.mp (List.mem_dedup.mp hx)
      split at hfa
      · rename_i hcond
        obtain rfl : to_lowercase a = x := Option.some.inj hfa
        exact hcond
      · exact absurd hfa (by simp)

/-! ## Claims -/

/-- C4: for every environment, key and default, `read_bool_env_var` returns
`true` when the variable's value lowercases to `"true"` or `"1"` (covering
`"true"`, `"TRUE"`, `"1"` case-insensitively), `false` when it lowercases to
`"false"` or `"0"`, and the supplied default for any other string or an
absent/unreadable variable. -/
theorem c4_read_bool_env_var_spec (env : Env) (key : String) (d : Bool) :
    (env key = none → read_bool_env_var env key d = d) ∧
    (∀ v, env key = some v →
      ((to_lowercase v = "true" ∨ to_lowercase v = "1") →
        read_bool_env_var env key d = true) ∧
      ((to_lowercase v = "false" ∨ to_lowercase v = "0") →
        read_bool_env_var env key d = false) ∧
      (to_lowercase v ≠ "true" → to_lowercase v ≠ "1" →
       to_lowercase v ≠ "false" → to_lowercase v ≠ "0" →
        read_bool_env_var env key d = d)) := by
  refine ⟨fun h => by simp [read_bool_env_var, h], fun v hv => ⟨?_, ?_, ?_⟩⟩
  · intro h1
    simp [read_bool_env_var, hv, h1]
  · intro h2
    rcases h2 with h2 | h2 <;> simp [read_bool_env_var, hv, h2]
  · intro n1 n2 n3 n4
    simp [read_bool_env_var, hv, n1, n2, n3, n4]

/-- C4 witness: `"TRUE"` parses to `true` against default `false`. -/
theorem c4_read_bool_env_var_spec_witness :
    read_bool_env_var (fun k => if k = "K" then some "TRUE" else none) "K" false = true :=
  ((c4_read_bool_env_var_spec (fun k => if k = "K" then some "TRUE" else none)
    "K" false).2 "TRUE" rfl).1 (Or.inl (by decide))

/-- C5: log-target parsing keeps only `"file"`/`"stdout"` tokens (the result
is always a nonempty subset of those), `"file;stdout"` yields both targets,
and `""`, `"bogus"`, or an unset variable yield just `{"file"}`. -/
theorem c5_log_targets_spec :
    (∀ env : Env, read_log_targets_from_env_var env ≠ [] ∧
      ∀ x ∈ read_log_targets_from_env_var env, x = "file" ∨ x = "stdout") ∧
    read_log_targets_from_env_var (fun _ => none) = ["file"] ∧
    (∀ env : Env, env "ELASTIC_APM_PROFILER_LOG_TARGETS" = some "file;stdout" →
      read_log_targets_from_env_var env = ["file", "stdout"]) ∧
    (∀ env : Env, env "ELASTIC_APM_PROFILER_LOG_TARGETS" = some "" →
      read_log_targets_from_env_var env = ["file"]) ∧
    (∀ env : Env, env "ELASTIC_APM_PROFILER_LOG_TARGETS" = some "bogus" →
      read_log_targets_from_env_var env = ["file"]) := by
  refine ⟨fun env => ⟨read_log_targets_ne_nil env, read_log_targets_mem env⟩,
    by decide, fun env h => ?_, fun env h => ?_, fun env h => ?_⟩ <;>
    exact (read_log_targets_congr env _ h).trans (by decide)

/-- C5 witness: the `"file;stdout"` clause at a concrete environment. -/
theorem c5_log_targets_spec_witness :
    read_log_targets_from_env_var (fun _ => some "file;stdout") = ["file", "stdout"] :=
  c5_log_targets_spec.2.2.1 (fun _ => some "file;stdout") rfl

/-- C6: `read_log_level_from_env_var` returns the caller's default when the
variable is unset or unparsable, and exactly the named level when the value
parses. -/
theorem c6_read_log_level_spec (env : Env) (d : LevelFilter) :
    (env "ELASTIC_APM_PROFILER_LOG" = none →
      read_log_level_from_env_var env d = d) ∧
    (∀ v, env "ELASTIC_APM_PROFILER_LOG" = some v → LevelFilter.fromStr v = none →
      read_log_level_from_env_var env d = d) ∧
    (∀ v l, env "ELASTIC_APM_PROFILER_LOG" = some v → LevelFilter.fromStr v = some l →
      read_log_level_from_env_var env d = l) := by
  refine ⟨fun h => by simp [read_log_level_from_env_var, h],
    fun v hv hp => by simp [read_log_level_from_env_var, hv, hp],
    fun v l hv hp => by simp [read_log_level_from_env_var, hv, hp]⟩

/-- C6 witness: `"debug"` resolves to the debug level over default warn. -/
theorem c6_read_log_level_spec_witness :
    read_log_level_from_env_var (fun _ => some "debug") .warn = .debug :=
  (c6_read_log_level_spec (fun _ => some "debug") .warn).2.2 "debug" .debug rfl (by decide)

/-- C7: the effective log directory is the `ELASTIC_APM_PROFILER_LOG_DIR`
value when set, else the platform default, which on non-Windows targets is
the fixed path `/var/log/elastic/apm-agent-dotnet`. -/
theorem c7_log_dir_spec (env : Env) :
    get_default_log_dir = "/var/log/elastic/apm-agent-dotnet" ∧
    (∀ p, env "ELASTIC_APM_PROFILER_LOG_DIR" = some p → get_log_dir env = p) ∧
    (env "ELASTIC_APM_PROFILER_LOG_DIR" = none →
      get_log_dir env = get_default_log_dir) := by
  refine ⟨rfl, fun p hp => by simp [get_log_dir, hp],
    fun h => by simp [get_log_dir, h]⟩

/-- C7 witness: with no override the default directory is used. -/
theorem c7_log_dir_spec_witness :
    get_log_dir (fun _ => none) = get_default_log_dir :=
  (c7_log_dir_spec (fun _ => none)).2.2 rfl

/-- C9: a filled lazy cache answers from the cache without consulting the
environment (so any later environment mutation is invisible), the second
read of a lazy cell returns exactly the first read's value, and the two
process-wide flags are computed with defaults `false`
(`ELASTIC_APM_PROFILER_LOG_IL`) and `true`
(`ELASTIC_APM_PROFILER_CALLTARGET_ENABLED`). -/
theorem c9_cached_flags_spec :
    (∀ (compute : Env → Bool) (v : Bool) (env : Env),
      lazy_read compute (some v) env = (v, some v)) ∧
    (∀ (compute : Env → Bool) (env1 env2 : Env),
      (lazy_read compute (lazy_read compute none env1).2 env2).1 =
        (lazy_read compute none env1).1) ∧
    (∀ env : Env, env "ELASTIC_APM_PROFILER_LOG_IL" = none →
      elastic_apm_profiler_log_il env = false) ∧
    (∀ env : Env, env "ELASTIC_APM_PROFILER_CALLTARGET_ENABLED" = none →
      elastic_apm_profiler_calltarget_enabled env = true) := by
  refine ⟨fun _ _ _ => rfl, fun _ _ _ => rfl,
    fun env h => by simp [elastic_apm_profiler_log_il, read_bool_env_var, h],
    fun env h => by simp [elastic_apm_profiler_calltarget_enabled, read_bool_env_var, h]⟩

/-- C9 witness: with the variable unset the IL flag defaults to `false`. -/
theorem c9_cached_flags_spec_witness :
    elastic_apm_profiler_log_il (fun _ => none) = false :=
  c9_cached_flags_spec.2.2.1 (fun _ => none) rfl

/-- C10: tokens are not trimmed before matching, so `"file; stdout"` keeps
only `"file"` — the `" stdout"` token (leading space) is dropped. -/
theorem c10_no_token_trim :
    read_log_targets_from_env_var (fun _ => some "file; stdout") = ["file"] := by
  decide

/-- C3: `load_integrations` fails with `E_FAIL` exactly when the
`ELASTIC_APM_PROFILER_INTEGRATIONS` variable is unset, the named file cannot
be opened, or its contents fail to parse; every error it returns is
`E_FAIL`; and with the variable unset the result is the same `E_FAIL` error
no matter what the filesystem or parser would do (no file is opened). -/
theorem c3_load_integrations_failures (α : Type) (env : Env)
    (open_file : String → Option String) (parse_yaml : String → Option (List α)) :
    (load_integrations α env open_file parse_yaml = .error E_FAIL ↔
      env "ELASTIC_APM_PROFILER_INTEGRATIONS" = none ∨
      (∃ p, env "ELASTIC_APM_PROFILER_INTEGRATIONS" = some p ∧ open_file p = none) ∨
      (∃ p c, env "ELASTIC_APM_PROFILER_INTEGRATIONS" = some p ∧
        open_file p = some c ∧ parse_yaml c = none)) ∧
    (∀ e : Int, load_integrations α env open_file parse_yaml = .error e → e = E_FAIL) ∧
    (env "ELASTIC_APM_PROFILER_INTEGRATIONS" = none →
      ∀ (o2 : String → Option String) (p2 : String → Option (List α)),
        load_integrations α env o2 p2 = .error E_FAIL) := by
  refine ⟨?_, ?_, fun h o2 p2 => by simp [load_integrations, h]⟩ <;>
  · unfold load_integrations
    rcases h : env "ELASTIC_APM_PROFILER_INTEGRATIONS" with _ | p
    · simp [h]
    · rcases ho : open_file p with _ | c
      · simp [h, ho]
      · rcases hp : parse_yaml c with _ | xs <;> simp [h, ho, hp]

/-- C3 witness: with the variable unset the loader fails with `E_FAIL`
regardless of a filesystem that would have succeeded. -/
theorem c3_load_integrations_failures_witness :
    load_integrations Nat (fun _ => none) (fun _ => some "x") (fun _ => some [0]) =
      .error E_FAIL :=
  (c3_load_integrations_failures Nat (fun _ => none) (fun _ => none)
    (fun _ => none)).2.2 rfl (fun _ => some "x") (fun _ => some [0])

/-- C8: `load_integrations` is deterministic over its inputs — two successful
results from the same environment and file contents are equal — and a
successful result is exactly the parser's output for the opened file, with
no filtering, deduplication, or reordering. -/
theorem c8_load_integrations_deterministic (α : Type) (env : Env)
    (open_file : String → Option String) (parse_yaml : String → Option (List α)) :
    (∀ l1 l2, load_integrations α env open_file parse_yaml = .ok l1 →
      load_integrations α env open_file parse_yaml = .ok l2 → l1 = l2) ∧
    (∀ l, load_integrations α env open_file parse_yaml = .ok l →
      ∃ p c, env "ELASTIC_APM_PROFILER_INTEGRATIONS" = some p ∧
        open_file p = some c ∧ parse_yaml c = some l) := by
  refine ⟨fun l1 l2 h1 h2 => by rw [h1] at h2; exact Except.ok.inj h2,
    fun l hl => ?_⟩
  unfold load_integrations at hl
  split at hl
  · exact absurd hl (by simp)
  · rename_i p h
    split at hl
    · exact absurd hl (by simp)
    · rename_i c ho
      split at hl
      · exact absurd hl (by simp)
      · rename_i xs hp
        exact ⟨p, c, h, ho, by rw [hp]; exact congrArg some (Except.ok.inj hl)⟩

/-- C8 witness: a successful concrete load returns the parsed contents. -/
theorem c8_load_integrations_deterministic_witness :
    ∃ p c, (fun _ => some "manifest.yml" : Env) "ELASTIC_APM_PROFILER_INTEGRATIONS" = some p ∧
      (fun _ => some "contents" : String → Option String) p = some c ∧
      (fun _ => some [3] : String → Option (List Nat)) c = some [3] :=
  (c8_load_integrations_deterministic Nat (fun _ => some "manifest.yml")
    (fun _ => some "contents") (fun _ => some [3])).2 [3] rfl

/-- C1 counterexample: an existing, valid log directory whose file appender
construction fails (`RollingFileAppender::build` returning `Err`, e.g. an
unwritable directory) makes `initialize_logging` panic at the `.unwrap()`
(env.rs line 286) instead of dropping the file target — no handle is
returned, refuting "never reports a hard error ... always returns a
handle". -/
theorem c1_counterexample :
    initialize_logging "w3wp" (fun _ => none)
      ⟨fun _ => true, fun _ => true, fun _ => true⟩ (fun _ => false) true = none := by
  decide

/-- C1 (amended): provided every appender construction succeeds and the
logger installation succeeds, `initialize_logging` returns a handle for
every environment and process name, and directory-resolution failures only
drop the file target (the returned configuration has no `"file"` appender
when the directory was marked invalid); a failing appender construction or
installation instead panics. -/
theorem c1_initialize_logging_amended (process_name : String) (env : Env)
    (fs : FsOps) (appender_ok : String → Bool)
    (ha : ∀ d, appender_ok d = true) :
    ∃ s, initialize_logging process_name env fs appender_ok true = some s ∧
      ((resolve_log_dir env fs).valid = false → "file" ∉ s.appenders) := by
  by_cases hst : "stdout" ∈ read_log_targets_from_env_var env <;>
    by_cases hf : "file" ∈ read_log_targets_from_env_var env <;>
    rcases hv : (resolve_log_dir env fs).valid <;>
    simp [initialize_logging, hst, hf, hv, ha]

/-- C1 witness: a run with a valid directory and healthy sinks returns a
handle. -/
theorem c1_initialize_logging_amended_witness :
    ∃ s, initialize_logging "w3wp" (fun _ => none)
      ⟨fun _ => true, fun _ => true, fun _ => true⟩ (fun _ => true) true = some s ∧
      ((resolve_log_dir (fun _ => none)
          ⟨fun _ => true, fun _ => true, fun _ => true⟩).valid = false →
        "file" ∉ s.appenders) :=
  c1_initialize_logging_amended "w3wp" (fun _ => none)
    ⟨fun _ => true, fun _ => true, fun _ => true⟩ (fun _ => true) (fun _ => rfl)

/-- C2 counterexample: with no override, a nonexistent platform default
directory, and failing creation, the effective directory already equals the
platform default; the code then makes no fallback attempt, leaves
`valid_log_dir = true` (the claim requires it be marked invalid), and the
file sink is still installed rather than disabled. -/
theorem c2_counterexample :
    (resolve_log_dir (fun _ => none)
      ⟨fun _ => false, fun _ => false, fun _ => false⟩).valid = true ∧
    (resolve_log_dir (fun _ => none)
      ⟨fun _ => false, fun _ => false, fun _ => false⟩).create_attempts =
      ["/var/log/elastic/apm-agent-dotnet"] ∧
    initialize_logging "w3wp" (fun _ => none)
      ⟨fun _ => false, fun _ => false, fun _ => false⟩ (fun _ => true) true =
      some ⟨["file"], .warn⟩ := by
  decide

/-- C2 (amended): when the effective log directory does not exist and its
creation fails, then: if it differs from the platform default, exactly one
fallback creation attempt is made against the platform default, and if that
also fails the path is marked invalid and the file sink is disabled for
this run; if it already equals the platform default, no fallback attempt is
made and the path remains marked valid. -/
theorem c2_dir_fallback_amended (env : Env) (fs : FsOps)
    (hne : fs.exists? (effective_log_dir env fs) = false)
    (hcf : fs.create_ok (effective_log_dir env fs) = false) :
    (effective_log_dir env fs ≠ get_default_log_dir →
      (resolve_log_dir env fs).create_attempts =
        [effective_log_dir env fs, get_default_log_dir] ∧
      (fs.create_ok get_default_log_dir = false →
        (resolve_log_dir env fs).valid = false ∧
        ∀ pn a i s, initialize_logging pn env fs a i = some s →
          "file" ∉ s.appenders)) ∧
    (effective_log_dir env fs = get_default_log_dir →
      (resolve_log_dir env fs).create_attempts = [effective_log_dir env fs] ∧
      (resolve_log_dir env fs).valid = true) := by
  constructor
  · intro hd
    have hres : resolve_log_dir env fs =
        if fs.create_ok get_default_log_dir then
          ⟨get_default_log_dir, true, [effective_log_dir env fs, get_default_log_dir]⟩
        else
          ⟨get_default_log_dir, false, [effective_log_dir env fs, get_default_log_dir]⟩ := by
      unfold resolve_log_dir
      simp [hne, hcf, hd]
    refine ⟨?_, fun hdf => ?_⟩
    · rcases h2 : fs.create_ok get_default_log_dir <;> simp [hres, h2]
    · have hv : (resolve_log_dir env fs).valid = false := by simp [hres, hdf]
      refine ⟨hv, fun pn a i s hs => ?_⟩
      unfold initialize_logging at hs
      rcases hst : (read_log_targets_from_env_var env).contains "stdout" <;>
        rcases hf : (read_log_targets_from_env_var env).contains "file" <;>
        simp [hst, hf, hv] at hs <;>
        rcases hs with ⟨hi, rfl⟩ <;> simp
  · intro hd
    rw [hd] at hne hcf ⊢
    unfold resolve_log_dir
    simp [hne, hcf, hd]

/-- C2 witness: a custom directory that cannot be created triggers exactly
one fallback attempt against the default, whose failure invalidates the
path. -/
theorem c2_dir_fallback_amended_witness :
    (resolve_log_dir (fun _ => some "/custom")
      ⟨fun _ => false, fun _ => false, fun _ => false⟩).create_attempts =
      ["/custom", "/var/log/elastic/apm-agent-dotnet"] ∧
    (resolve_log_dir (fun _ => some "/custom")
      ⟨fun _ => false, fun _ => false, fun _ => false⟩).valid = false :=
  ⟨((c2_dir_fallback_amended (fun _ => some "/custom")
      ⟨fun _ => false, fun _ => false, fun _ => false⟩ rfl rfl).1 (by decide)).1,
   (((c2_dir_fallback_amended (fun _ => some "/custom")
      ⟨fun _ => false, fun _ => false, fun _ => false⟩ rfl rfl).1 (by decide)).2 rfl).1⟩
